import Mathlib

/-!
Verification of the Walrus Agent SDK blockchain event engine
(`walrus_agent_sdk/blockchain.py`, `walrus_agent_sdk/agent.py`):
a shallow embedding of the event matcher, the RPC retry loop, the
polling-loop checkpoint cursor, the transaction gateway precondition,
and handler registration, with theorems settling the specified
behavioural claims.
-/

mutual
/-- A JSON-like value tree, as carried by raw blockchain events and
    filter maps: strings, integers, booleans, null, and string-keyed
    objects.  Mirrors the Python `Dict[str, Any]` payloads the code
    actually inspects. -/
inductive JsonValue where
  | str (s : String)
  | int (n : Int)
  | bool (b : Bool)
  | null
  | obj (fields : JFields)
  deriving DecidableEq, Repr

/-- The field list of a JSON object: ordered `(key, value)` bindings,
    as in a Python dict (keys unique, insertion-ordered). -/
inductive JFields where
  | nil
  | cons (key : String) (value : JsonValue) (rest : JFields)
  deriving DecidableEq, Repr
end

/-- A Python dict of JSON values (an event payload or a filter map). -/
abbrev JDict := JFields

/-- `d[key]` lookup on a dict: first binding of `key`, if any. -/
def dictGet : JDict → String → Option JsonValue
  | .nil, _ => none
  | .cons k v rest, key => if k = key then some v else dictGet rest key

/-- Python's substring test `needle in hay`. -/
def strContains (hay needle : String) : Bool :=
  decide (needle.data <:+: hay.data)

/-- Python `s.lower()` (ASCII case mapping, as used on event type
    strings). -/
def pyLower (s : String) : String :=
  String.mk (s.data.map Char.toLower)

/-- Python `s.upper()` (ASCII case mapping, as used on handler event
    names). -/
def pyUpper (s : String) : String :=
  String.mk (s.data.map Char.toUpper)

/-- Python `c in s` for a single character `c`. -/
def pyContainsChar (s : String) (c : Char) : Bool :=
  decide (c ∈ s.data)

/-- Splitting a character list at every occurrence of `sep`, keeping
    empty pieces, as Python `str.split` does with an explicit
    separator. -/
def splitOnChar (sep : Char) : List Char → List (List Char)
  | [] => [[]]
  | x :: xs =>
    match splitOnChar sep xs with
    | [] => [[]]
    | piece :: pieces =>
      if x = sep then [] :: piece :: pieces
      else (x :: piece) :: pieces

/-- Python `key.split(".")`. -/
def pySplitDot (key : String) : List String :=
  (splitOnChar '.' key.data).map String.mk


/-- The `EventType` enum of `blockchain.py`: coarse event categories. -/
inductive EventType where
  | nft_transfer
  | token_transfer
  | object_change
  | move_event
  | epoch_change
  | checkpoint
  | custom
  deriving DecidableEq, Repr

/-- `event.get("type", "")` followed by `.lower()`: the default or the
    lowered string when the field holds a string, and `none` (a Python
    `AttributeError`) when the field holds a non-string value. -/
def type_field_lower (event : JDict) : Option String :=
  match dictGet event "type" with
  | none => some (pyLower "")
  | some (.str s) => some (pyLower s)
  | some _ => none

/-- The category-predicate block of `BlockchainClient._event_matches`
    (lines 247-270): `some true` when the branch does not return
    `False`, `some false` when it does, `none` when `.lower()` faults
    on a non-string `type` field.  The CUSTOM and MOVE_EVENT branches
    never inspect the type string. -/
def category_passes (event : JDict) (event_type : EventType) : Option Bool :=
  match event_type with
  | .custom => some true
  | .move_event => some true
  | _ =>
    match type_field_lower event with
    | none => none
    | some low => some (match event_type with
        | .nft_transfer => strContains low "nft" || strContains low "transfer"
        | .token_transfer => strContains low "coin" || strContains low "transfer"
        | .object_change => strContains low "object"
        | .epoch_change => strContains low "epoch"
        | .checkpoint => strContains low "checkpoint"
        | _ => true)

/-- Dotted-path descent of `_event_matches` (lines 277-282): starting
    from `current = event`, each path segment requires `current` to be
    a dict containing the segment; otherwise the resolution fails. -/
def resolve_path : List String → JsonValue → Option JsonValue
  | [], current => some current
  | part :: parts, .obj fields =>
    match dictGet fields part with
    | some next => resolve_path parts next
    | none => none
  | _ :: _, _ => none

/-- Python numeric view of a value: `bool` is a subclass of `int`, so
    `True` counts as 1 and `False` as 0 in comparisons; strings, None
    and dicts have no numeric view. -/
def pyNum : JsonValue → Option Int
  | .int n => some n
  | .bool b => some (if b then 1 else 0)
  | _ => none

/-- Number of bindings in a dict (`len`). -/
def jfLen : JFields → Nat
  | .nil => 0
  | .cons _ _ rest => jfLen rest + 1

mutual
/-- Python `==` on the modelled values: strings by content, `None`
    only to `None`, numbers by numeric value (so `True == 1` and
    `False == 0`, since `bool` subclasses `int`), dicts by key set and
    Python-equal values (insertion order irrelevant; keys unique as in
    any Python dict); values of different kinds otherwise compare
    unequal. -/
def pyEq : JsonValue → JsonValue → Bool
  | .str a, .str b => a == b
  | .null, .null => true
  | .obj a, .obj b => jfLen a == jfLen b && pyEqEntries a b
  | x, y =>
    match pyNum x, pyNum y with
    | some m, some n => m == n
    | _, _ => false

/-- Every binding of the first dict is present in the second with a
    Python-equal value. -/
def pyEqEntries : JFields → JFields → Bool
  | .nil, _ => true
  | .cons k v rest, b =>
    (match dictGet b k with
     | some w => pyEq v w
     | none => false) && pyEqEntries rest b
end

/-- One iteration of the filter loop of `_event_matches` (lines
    274-288): a dotted key resolves through the event tree and the
    leaf must be Python-equal to the expected value (`current !=
    value`); a plain key must be present directly on the event with a
    Python-equal value (`event[key] != value`). -/
def filter_entry_matches (event : JDict) (key : String) (value : JsonValue) : Bool :=
  if pyContainsChar key '.' then
    match resolve_path (pySplitDot key) (.obj event) with
    | some leaf => pyEq leaf value
    | none => false
  else
    match dictGet event key with
    | some v => pyEq v value
    | none => false

/-- The whole filter loop: every entry must match (Python's early
    `return False` is the short-circuiting conjunction). -/
def filters_match (event : JDict) : JDict → Bool
  | .nil => true
  | .cons k v rest => filter_entry_matches event k v && filters_match event rest

/-- `BlockchainClient._event_matches` (lines 234-290): `some b` when
    the Python call returns the boolean `b`, `none` when it raises
    (`.lower()` on a non-string `type` field). -/
def event_matches (event : JDict) (event_type : EventType) (filter_params : JDict) :
    Option Bool :=
  match category_passes event event_type with
  | none => none
  | some false => some false
  | some true => some (filters_match event filter_params)


/-- What one underlying network attempt of `_make_rpc_call` can yield:
    a network-level failure (`requests.RequestException` or
    `json.JSONDecodeError`), a well-formed response carrying an error
    object with a message, or a well-formed result. -/
inductive AttemptOutcome where
  | netFail (msg : String)
  | rpcError (msg : String)
  | ok (result : JsonValue)
  deriving DecidableEq, Repr

/-- The observable outcome of `_make_rpc_call`: the result value, an
    immediately-raised `BlockchainError "RPC error: …"` carrying the
    remote message, or the exhausted-retries
    `BlockchainError "Failed to make RPC call after N retries: …"`
    carrying the attempt count and the last failure. -/
inductive RpcOutcome where
  | success (result : JsonValue)
  | remoteError (msg : String)
  | transportError (attempts : Nat) (lastMsg : String)
  deriving DecidableEq, Repr

/-- The retry loop of `_make_rpc_call` (lines 69-87), driven by the
    oracle `attempts` giving the outcome of the i-th network attempt.
    Returns the outcome plus the number of attempts actually made;
    `none` models the loop body never raising or returning (only
    possible when the retry budget is 0, where Python returns `None`).
    `retry_count` is the loop variable. -/
def rpcLoop (maxRetries : Nat) (attempts : Nat → AttemptOutcome) (retry_count : Nat) :
    Option (RpcOutcome × Nat) :=
  if retry_count < maxRetries then
    match attempts retry_count with
    | .ok v => some (.success v, retry_count + 1)
    | .rpcError m => some (.remoteError m, retry_count + 1)
    | .netFail m =>
      if retry_count + 1 ≥ maxRetries then some (.transportError maxRetries m, retry_count + 1)
      else rpcLoop maxRetries attempts (retry_count + 1)
  else none
  termination_by maxRetries - retry_count

/-- `BlockchainClient._make_rpc_call`: run the retry loop from attempt
    count 0. -/
def make_rpc_call (maxRetries : Nat) (attempts : Nat → AttemptOutcome) :
    Option (RpcOutcome × Nat) :=
  rpcLoop maxRetries attempts 0

/-- The transport as seen by one polling cycle: the outcome of
    `get_latest_checkpoint` and, per checkpoint, the outcome of the
    underlying RPC fetch of its events. -/
structure Transport where
  latest : Except String Int
  eventsAt : Int → Except String (List JDict)

/-- `BlockchainClient.get_events_by_checkpoint` (lines 98-105): any
    failure of the underlying RPC call is caught, logged, and an empty
    list is returned — the function itself never raises. -/
def get_events_by_checkpoint (t : Transport) (checkpoint : Int) : List JDict :=
  match t.eventsAt checkpoint with
  | .ok events => events
  | .error _ => []

/-- The lazy cursor initialization at the top of `_poll_events` (lines
    186-193): an unset cursor becomes the chain's latest checkpoint,
    or 0 when that query fails. -/
def init_cursor (t : Transport) : Option Int → Int
  | some c => c
  | none =>
    match t.latest with
    | .ok n => n
    | .error _ => 0

/-- Python `range(last + 1, latest + 1)` as a list of checkpoints. -/
def checkpointRange (last latest : Int) : List Int :=
  (List.range (latest - last).toNat).map (fun (i : Nat) => last + 1 + (i : Int))

/-- The per-checkpoint loop of one polling cycle (lines 201-204): for
    each checkpoint, fetch its events (failures swallowed into `[]`),
    dispatch them, and set the cursor to that checkpoint.  Returns the
    final cursor and the `(checkpoint, events)` batches dispatched. -/
def process_range (t : Transport) (cursor : Int) : List Int → Int × List (Int × List JDict)
  | [] => (cursor, [])
  | k :: ks =>
    let events := get_events_by_checkpoint t k
    let rest := process_range t k ks
    (rest.1, (k, events) :: rest.2)

/-- One iteration of the `while` loop of `_poll_events` (lines
    195-211): fetch the latest checkpoint (on failure the cycle's
    exception handler leaves the cursor untouched), then process every
    checkpoint in `range(cursor + 1, latest + 1)` in order. -/
def poll_cycle (t : Transport) (cursor : Int) : Int × List (Int × List JDict) :=
  match t.latest with
  | .error _ => (cursor, [])
  | .ok latest => process_range t cursor (checkpointRange cursor latest)

/-- Outcome of `execute_transaction`: the configuration error raised
    when no signing credential is set, or the (mock) transaction
    result. -/
inductive TxOutcome where
  | configError (msg : String)
  | ok (digest : String)
  deriving DecidableEq, Repr

/-- Python truthiness of the stored private key: `None` and the empty
    string are falsy. -/
def private_key_falsy : Option String → Bool
  | none => true
  | some s => s.isEmpty

/-- `BlockchainClient.execute_transaction` (lines 292-332): the guard
    raises `BlockchainError` when no private key is configured;
    otherwise the (placeholder) success result is built.  The second
    component counts RPC calls made — the function makes none in
    either branch. -/
def execute_transaction (private_key : Option String) (now : Nat) : TxOutcome × Nat :=
  if private_key_falsy private_key then
    (.configError "Private key not set. Cannot execute transactions.", 0)
  else
    (.ok ("mock_tx_" ++ toString now), 0)

/-- The Python `EventType[name]` enum name lookup used by
    `WalrusAgent._register_event_handler`: `none` is the `KeyError`
    branch. -/
def eventTypeOfName (name : String) : Option EventType :=
  if name = "NFT_TRANSFER" then some .nft_transfer
  else if name = "TOKEN_TRANSFER" then some .token_transfer
  else if name = "OBJECT_CHANGE" then some .object_change
  else if name = "MOVE_EVENT" then some .move_event
  else if name = "EPOCH_CHANGE" then some .epoch_change
  else if name = "CHECKPOINT" then some .checkpoint
  else if name = "CUSTOM" then some .custom
  else none

/-- Python `d[k] = v` on a dict: overwrite the binding in place if the
    key exists, else append it. -/
def dictSet (d : JDict) (key : String) (value : JsonValue) : JDict :=
  match d with
  | .nil => .cons key value .nil
  | .cons k v rest =>
    if k = key then .cons key value rest
    else .cons k v (dictSet rest key value)

/-- `WalrusAgent._register_event_handler` (agent.py lines 253-262),
    projected to the data it computes: the category and filter map it
    passes to `subscribe_to_events` (which applies `filter_params or
    \x7b\x7d`, modelled by defaulting `none` to the empty dict).  An
    unknown name falls back to CUSTOM and stores the event name under
    the `"type"` filter key. -/
def register_event_handler (event_name : String) (filter_params : Option JDict) :
    EventType × JDict :=
  match eventTypeOfName (pyUpper event_name) with
  | some event_type => (event_type, filter_params.getD .nil)
  | none => (.custom, dictSet (filter_params.getD .nil) "type" (.str event_name))


/-- The bindings of a dict as a Lean list, for stating "every filter
    entry" quantifications. -/
def JFields.toList : JFields → List (String × JsonValue)
  | .nil => []
  | .cons k v rest => (k, v) :: toList rest

/-- Whether the event's `"type"` field is absent or holds a string —
    the events on which the matcher's type handling is total. -/
def type_ok (event : JDict) : Bool :=
  match dictGet event "type" with
  | none => true
  | some (.str _) => true
  | some _ => false

/-- Spec wording (§4.3): "an event lacking a `type` field is treated
    as having an empty-string type". -/
def spec_type_str (event : JDict) : String :=
  match dictGet event "type" with
  | some (.str s) => s
  | _ => ""

/-- Spec wording (§4.3), category predicate: each category other than
    unclassified/custom and contract-emitted requires the event's
    `type` string to case-insensitively contain designated substrings;
    contract-emitted and unclassified/custom accept unconditionally. -/
def spec_category_ok (category : EventType) (event : JDict) : Bool :=
  match category with
  | .custom => true
  | .move_event => true
  | .nft_transfer =>
    strContains (pyLower (spec_type_str event)) "nft" ||
      strContains (pyLower (spec_type_str event)) "transfer"
  | .token_transfer =>
    strContains (pyLower (spec_type_str event)) "coin" ||
      strContains (pyLower (spec_type_str event)) "transfer"
  | .object_change => strContains (pyLower (spec_type_str event)) "object"
  | .epoch_change => strContains (pyLower (spec_type_str event)) "epoch"
  | .checkpoint => strContains (pyLower (spec_type_str event)) "checkpoint"

/-- Spec wording (§4.3), dotted-key resolution: descend the event tree
    one path segment at a time; fail if any intermediate segment is
    missing or the current value is not a traversable structure. -/
def spec_resolve : List String → JsonValue → Option JsonValue
  | [], current => some current
  | segment :: segments, .obj fields =>
    match dictGet fields segment with
    | some next => spec_resolve segments next
    | none => none
  | _ :: _, _ => none

/-- Spec wording (§4.3), one filter entry: a plain key must exist
    directly on the event with an equal value; a dotted key must
    resolve to a leaf equal to the expected value.  "Equal" is the
    program's own equality, Python `==`. -/
def spec_filter_entry_ok (event : JDict) (key : String) (value : JsonValue) : Bool :=
  if pyContainsChar key '.' then
    match spec_resolve (pySplitDot key) (.obj event) with
    | some leaf => pyEq leaf value
    | none => false
  else
    match dictGet event key with
    | some v => pyEq v value
    | none => false

/-- A transport where the latest checkpoint is 2 but the event fetch
    for checkpoint 2 fails at the RPC level (only checkpoint 1's fetch
    succeeds). -/
def t_fetch_fail : Transport where
  latest := .ok 2
  eventsAt := fun k =>
    if k = 1 then .ok [.cons "type" (.str "event_at_1") .nil]
    else .error "rpc fetch failed"

/-- A transport whose latest-checkpoint query fails. -/
def t_latest_fail : Transport where
  latest := .error "connection refused"
  eventsAt := fun _ => .ok []

/-- A healthy transport whose chain head is checkpoint 5. -/
def t_head5 : Transport where
  latest := .ok 5
  eventsAt := fun _ => .ok []

lemma JFields.rec_on_fields (P : JFields → Prop) (hnil : P .nil)
    (hcons : ∀ k v rest, P rest → P (.cons k v rest)) : ∀ d, P d
  | .nil => hnil
  | .cons k v rest => hcons k v rest (JFields.rec_on_fields P hnil hcons rest)

lemma dictGet_dictSet_self (d : JDict) (key : String) (value : JsonValue) :
    dictGet (dictSet d key value) key = some value := by
  induction d using JFields.rec_on_fields with
  | hnil => simp [dictSet, dictGet]
  | hcons k v rest ih =>
    by_cases hk : k = key
    · simp [dictSet, hk, dictGet]
    · simp [dictSet, hk, dictGet, ih]

lemma filters_match_iff (event : JDict) (fp : JDict) :
    filters_match event fp = true ↔
      ∀ kv ∈ fp.toList, filter_entry_matches event kv.1 kv.2 = true := by
  induction fp using JFields.rec_on_fields with
  | hnil => simp [filters_match, JFields.toList]
  | hcons k v rest ih =>
    simp [filters_match, JFields.toList, Bool.and_eq_true, ih]

lemma spec_resolve_eq_resolve_path (segments : List String) (current : JsonValue) :
    spec_resolve segments current = resolve_path segments current := by
  induction segments generalizing current with
  | nil => rfl
  | cons p ps ih =>
    cases current with
    | obj fields =>
      simp only [spec_resolve, resolve_path]
      cases dictGet fields p with
      | none => rfl
      | some next => exact ih next
    | str s => rfl
    | int n => rfl
    | bool b => rfl
    | null => rfl

lemma filter_entry_matches_eq_spec (event : JDict) (key : String) (value : JsonValue) :
    filter_entry_matches event key value = spec_filter_entry_ok event key value := by
  simp only [filter_entry_matches, spec_filter_entry_ok, spec_resolve_eq_resolve_path]

lemma rpcLoop_all_netFail (maxR : Nat) (att : Nat → AttemptOutcome) (msg : Nat → String)
    (hall : ∀ i, i < maxR → att i = .netFail (msg i)) :
    ∀ r, r < maxR → rpcLoop maxR att r
      = some (.transportError maxR (msg (maxR - 1)), maxR) := by
  have main : ∀ fuel r, maxR - r ≤ fuel → r < maxR →
      rpcLoop maxR att r = some (.transportError maxR (msg (maxR - 1)), maxR) := by
    intro fuel
    induction fuel with
    | zero => intro r hfuel hr; omega
    | succ fuel ih =>
      intro r hfuel hr
      rw [rpcLoop]
      rw [if_pos hr, hall r hr]
      by_cases hlast : r + 1 ≥ maxR
      · simp only [hlast, if_true]
        have h2 : maxR - 1 = r := by omega
        have h1 : r + 1 = maxR := by omega
        rw [h2, h1]
      · simp only [hlast, if_false]
        exact ih (r + 1) (by omega) (by omega)
  intro r hr
  exact main (maxR - r) r le_rfl hr

lemma process_range_fst (t : Transport) :
    ∀ (ks : List Int) (c : Int), (process_range t c ks).1 = ks.getLastD c
  | [], _ => rfl
  | k :: ks, c => by
    simp only [process_range, List.getLastD_cons]
    exact process_range_fst t ks k

lemma process_range_mem (t : Transport) :
    ∀ (ks : List Int) (c k : Int) (events : List JDict),
      (k, events) ∈ (process_range t c ks).2 → k ∈ ks
  | [], _, k, events => by simp [process_range]
  | k' :: ks, c, k, events => by
    simp only [process_range, List.mem_cons, Prod.mk.injEq]
    rintro (⟨hk, _⟩ | hmem)
    · exact Or.inl hk
    · exact Or.inr (process_range_mem t ks k' k events hmem)

lemma mem_checkpointRange {c n k : Int} (h : k ∈ checkpointRange c n) : c < k ∧ k ≤ n := by
  unfold checkpointRange at h
  simp only [List.mem_map, List.mem_range] at h
  obtain ⟨i, hi, rfl⟩ := h
  omega

lemma checkpointRange_getLastD (c n : Int) :
    (checkpointRange c n).getLastD c = if c < n then n else c := by
  unfold checkpointRange
  rcases hm : (n - c).toNat with _ | k
  · rw [List.range_zero, List.map_nil, List.getLastD_nil, if_neg (by omega)]
  · rw [List.range_succ, List.map_append, List.map_cons, List.map_nil,
      List.getLastD_concat, if_pos (by omega)]
    omega

lemma poll_cycle_fst (t : Transport) (c n : Int) (h : t.latest = .ok n) :
    (poll_cycle t c).1 = if c < n then n else c := by
  unfold poll_cycle
  rw [h]
  rw [process_range_fst, checkpointRange_getLastD]

lemma poll_cycle_le (t : Transport) (c : Int) : c ≤ (poll_cycle t c).1 := by
  unfold poll_cycle
  cases h : t.latest with
  | error e => exact le_refl c
  | ok n =>
    rw [process_range_fst, checkpointRange_getLastD]
    split <;> omega

lemma category_passes_eq_spec (event : JDict) (event_type : EventType)
    (h : type_ok event = true) :
    category_passes event event_type = some (spec_category_ok event_type event) := by
  have htype : type_field_lower event = some (pyLower (spec_type_str event)) := by
    unfold type_field_lower spec_type_str type_ok at *
    cases hget : dictGet event "type" with
    | none => simp [hget]
    | some v =>
      cases v with
      | str s => simp [hget]
      | int n => simp [hget] at h
      | bool b => simp [hget] at h
      | null => simp [hget] at h
      | obj fields => simp [hget] at h
  cases event_type <;>
    simp [category_passes, spec_category_ok, htype]

/-- C1 (counterexample): in one polling cycle from cursor 0 with chain
    head 2, where checkpoint 1's event fetch succeeds and checkpoint
    2's event fetch fails at the RPC level, the cursor ends at 2 — it
    does not remain at 1 as the claim states, because
    `get_events_by_checkpoint` swallows the failure and returns `[]`,
    letting the loop advance. -/
theorem claim_C1_counterexample :
    t_fetch_fail.eventsAt 2 = .error "rpc fetch failed" ∧
    (poll_cycle t_fetch_fail 0).1 = 2 ∧ ¬((poll_cycle t_fetch_fail 0).1 = 1) := by
  refine ⟨rfl, by decide, by decide⟩

/-- C1 (amended): a failure of the latest-checkpoint query leaves the
    cursor unchanged for the cycle; but when the latest checkpoint is
    known, the cursor advances to it regardless of per-checkpoint
    event-fetch failures (those are swallowed into empty event lists);
    the cursor never decreases. -/
theorem claim_C1_amended_cursor (t : Transport) (c : Int) :
    (∀ e, t.latest = .error e → poll_cycle t c = (c, [])) ∧
    (∀ n, t.latest = .ok n → (poll_cycle t c).1 = if c < n then n else c) ∧
    c ≤ (poll_cycle t c).1 := by
  refine ⟨?_, ?_, poll_cycle_le t c⟩
  · intro e he
    unfold poll_cycle
    rw [he]
  · intro n hn
    exact poll_cycle_fst t c n hn

/-- C1 (amended, witness): concrete instances of the amended cursor
    behavior. -/
theorem claim_C1_amended_cursor_witness :
    poll_cycle t_latest_fail 7 = (7, []) ∧
    (poll_cycle t_head5 1).1 = 5 ∧ (1 : Int) ≤ (poll_cycle t_head5 1).1 := by
  refine ⟨(claim_C1_amended_cursor t_latest_fail 7).1 "connection refused" rfl, ?_,
    (claim_C1_amended_cursor t_head5 1).2.2⟩
  rw [(claim_C1_amended_cursor t_head5 1).2.1 5 rfl]
  decide

/-- C2: for events whose `type` field is absent or a string, the
    matcher returns `True` iff the spec-side category predicate holds
    and every filter entry resolves (dotted keys by path descent,
    plain keys directly) to an equal value; empty filters impose no
    constraint beyond the category predicate. -/
theorem claim_C2_matcher_iff_spec (event : JDict) (event_type : EventType)
    (filter_params : JDict) (h : type_ok event = true) :
    event_matches event event_type filter_params = some true ↔
      (spec_category_ok event_type event = true ∧
       ∀ kv ∈ filter_params.toList, spec_filter_entry_ok event kv.1 kv.2 = true) := by
  unfold event_matches
  rw [category_passes_eq_spec event event_type h]
  cases hc : spec_category_ok event_type event with
  | false => simp
  | true => simp [filters_match_iff, filter_entry_matches_eq_spec]

/-- C2 (witness): the matcher agrees with the spec predicate on a
    concrete event and subscription. -/
theorem claim_C2_matcher_iff_spec_witness :
    event_matches (.cons "type" (.str "nft_transfer") .nil) .nft_transfer .nil
      = some true :=
  (claim_C2_matcher_iff_spec (.cons "type" (.str "nft_transfer") .nil) .nft_transfer .nil
    (by decide)).mpr (by decide)

/-- C3: network-level failures are retried — two failures followed by
    a success return the success after exactly three attempts (budget
    ≥ 3 permitting); all attempts failing raises the transport error
    carrying the attempt count and the last failure message, after
    exactly the budgeted number of attempts. -/
theorem claim_C3_transport_retry (maxRetries : Nat) (att : Nat → AttemptOutcome) :
    (∀ m0 m1 v, 3 ≤ maxRetries → att 0 = .netFail m0 → att 1 = .netFail m1 →
       att 2 = .ok v → make_rpc_call maxRetries att = some (.success v, 3)) ∧
    (∀ msg : Nat → String, 0 < maxRetries →
       (∀ i, i < maxRetries → att i = .netFail (msg i)) →
       make_rpc_call maxRetries att
         = some (.transportError maxRetries (msg (maxRetries - 1)), maxRetries)) := by
  constructor
  · intro m0 m1 v h3 h0 h1 h2
    unfold make_rpc_call
    rw [rpcLoop, if_pos (show 0 < maxRetries by omega)]
    simp only [h0]
    rw [if_neg (show ¬(0 + 1 ≥ maxRetries) by omega)]
    rw [rpcLoop, if_pos (show 0 + 1 < maxRetries by omega)]
    simp only [h1]
    rw [if_neg (show ¬(0 + 1 + 1 ≥ maxRetries) by omega)]
    rw [rpcLoop, if_pos (show 0 + 1 + 1 < maxRetries by omega)]
    simp only [h2]
  · intro msg hpos hall
    exact rpcLoop_all_netFail maxRetries att msg hall 0 hpos

/-- C3 (witness): concrete retry traces with budget 3. -/
theorem claim_C3_transport_retry_witness :
    make_rpc_call 3
      (fun i => if i = 0 then .netFail "refused" else
                if i = 1 then .netFail "timeout" else .ok (.int 7))
      = some (.success (.int 7), 3) ∧
    make_rpc_call 3 (fun i => .netFail (if i = 2 then "last" else "earlier"))
      = some (.transportError 3 "last", 3) :=
  ⟨(claim_C3_transport_retry 3 _).1 "refused" "timeout" (.int 7) (by omega) rfl rfl rfl,
   (claim_C3_transport_retry 3 _).2 (fun i => if i = 2 then "last" else "earlier")
     (by omega) (by decide)⟩

/-- C4: a well-formed response carrying an error object is never
    retried — the call raises the RPC error with the remote message
    after exactly one attempt, whatever the retry budget. -/
theorem claim_C4_remote_error_no_retry (maxRetries : Nat) (att : Nat → AttemptOutcome)
    (msg : String) (hpos : 0 < maxRetries) (h0 : att 0 = .rpcError msg) :
    make_rpc_call maxRetries att = some (.remoteError msg, 1) := by
  unfold make_rpc_call
  rw [rpcLoop, if_pos hpos]
  simp only [h0]

/-- C4 (witness): a concrete remote error with budget 3 is surfaced
    after one attempt. -/
theorem claim_C4_remote_error_no_retry_witness :
    make_rpc_call 3 (fun _ => .rpcError "method not found")
      = some (.remoteError "method not found", 1) :=
  claim_C4_remote_error_no_retry 3 _ "method not found" (by omega) rfl

/-- C5 (code evaluation): the event `{"type": "nft_transfer"}` with an
    empty filter matches NFT_TRANSFER, as the claim states — but it
    also matches TOKEN_TRANSFER, because "transfer" is a substring of
    "nft_transfer" and the code's fungible predicate accepts "coin" OR
    "transfer"; the repository's own test
    (tests/test_blockchain.py line 205) asserts this is `False`. -/
theorem claim_C5_token_transfer_divergence :
    event_matches (.cons "type" (.str "nft_transfer") .nil) .nft_transfer .nil
      = some true ∧
    event_matches (.cons "type" (.str "nft_transfer") .nil) .token_transfer .nil
      = some true := by
  decide

/-- C6 (counterexample): against the claim, the match does not demand
    exact type-and-value equality at the leaf — the comparison is
    Python `==`, which identifies `True` with `1` (bool subclasses
    int): filter `data.flag = 1` matches the event whose leaf holds
    the boolean `True`, although the two values are of different
    types. -/
theorem claim_C6_counterexample :
    filter_entry_matches
      (.cons "data" (.obj (.cons "flag" (.bool true) .nil)) .nil)
      "data.flag" (.int 1) = true ∧
    JsonValue.bool true ≠ JsonValue.int 1 := by
  constructor
  · decide
  · decide

/-- C6 (amended): a dotted filter key matches iff the path resolves
    through the event tree to a leaf that is Python-equal to the
    expected value; Python equality distinguishes values of different
    kinds — an integer filter value does not match the string leaf
    `"100"` — with the exception that booleans are identified with
    their numeric values. -/
theorem claim_C6_dotted_leaf_pyeq (event : JDict) (key : String) (value : JsonValue)
    (h : pyContainsChar key '.' = true) :
    (filter_entry_matches event key value = true ↔
       ∃ leaf, resolve_path (pySplitDot key) (.obj event) = some leaf ∧
         pyEq leaf value = true) ∧
    filter_entry_matches
      (.cons "data" (.obj (.cons "amount" (.str "100") .nil)) .nil)
      "data.amount" (.int 100) = false := by
  refine ⟨?_, by decide⟩
  unfold filter_entry_matches
  rw [if_pos h]
  cases hr : resolve_path (pySplitDot key) (.obj event) with
  | none => simp
  | some leaf => simp

/-- C6 (witness): a concrete dotted key resolving to a Python-equal
    leaf matches. -/
theorem claim_C6_dotted_leaf_pyeq_witness :
    filter_entry_matches
      (.cons "data" (.obj (.cons "nested" (.obj (.cons "value" (.int 100) .nil)) .nil)) .nil)
      "data.nested.value" (.int 100) = true :=
  (claim_C6_dotted_leaf_pyeq
    (.cons "data" (.obj (.cons "nested" (.obj (.cons "value" (.int 100) .nil)) .nil)) .nil)
    "data.nested.value" (.int 100) (by decide)).1.mpr ⟨.int 100, by decide, by decide⟩

/-- C7: when the cursor is unset and the latest-checkpoint query
    succeeds with head `n`, the first poll adopts `n` as the starting
    cursor; every checkpoint subsequently processed in a cycle from
    that cursor is strictly greater than `n` (no historical backfill);
    and a polling cycle never decreases the cursor. -/
theorem claim_C7_first_poll_adopts_head (t : Transport) (n : Int)
    (h : t.latest = Except.ok n) :
    init_cursor t none = n ∧
    (∀ t2 k events, (k, events) ∈ (poll_cycle t2 (init_cursor t none)).2 → n < k) ∧
    (∀ t2 c, c ≤ (poll_cycle t2 c).1) := by
  have hinit : init_cursor t none = n := by
    unfold init_cursor
    rw [h]
  refine ⟨hinit, ?_, fun t2 c => poll_cycle_le t2 c⟩
  intro t2 k events hmem
  rw [hinit] at hmem
  unfold poll_cycle at hmem
  cases hl : t2.latest with
  | error e =>
    rw [hl] at hmem
    simp at hmem
  | ok m =>
    rw [hl] at hmem
    exact (mem_checkpointRange
      (process_range_mem t2 (checkpointRange n m) n k events hmem)).1

/-- C7 (witness): with head 5, the unset cursor is initialized to 5. -/
theorem claim_C7_first_poll_adopts_head_witness :
    init_cursor t_head5 none = 5 :=
  (claim_C7_first_poll_adopts_head t_head5 5 rfl).1

/-- C8: executing a transaction with a falsy (unset or empty) signing
    credential fails immediately with the configuration error and
    makes zero RPC calls; with a credential set, the guard is not
    taken and the (mock) success result is returned. -/
theorem claim_C8_execute_requires_credential (private_key : Option String) (now : Nat) :
    (private_key_falsy private_key = true →
       execute_transaction private_key now
         = (.configError "Private key not set. Cannot execute transactions.", 0)) ∧
    (private_key_falsy private_key = false →
       execute_transaction private_key now = (.ok ("mock_tx_" ++ toString now), 0)) := by
  constructor
  · intro h
    simp [execute_transaction, h]
  · intro h
    simp [execute_transaction, h]

/-- C8 (witness): concrete unset and set credentials. -/
theorem claim_C8_execute_requires_credential_witness :
    execute_transaction none 0
      = (.configError "Private key not set. Cannot execute transactions.", 0) ∧
    execute_transaction (some "0xabc") 0 = (.ok "mock_tx_0", 0) :=
  ⟨(claim_C8_execute_requires_credential none 0).1 rfl,
   (claim_C8_execute_requires_credential (some "0xabc") 0).2 (by decide)⟩

/-- C9: handler registration upper-cases the event name and looks it
    up among the known categories; a known name is used directly with
    the caller's filters, and an unknown name falls back to CUSTOM
    with a synthesized filter entry binding `"type"` to the given
    event name. -/
theorem claim_C9_registration_fallback (event_name : String) (filter_params : Option JDict) :
    (∀ et, eventTypeOfName (pyUpper event_name) = some et →
       register_event_handler event_name filter_params = (et, filter_params.getD .nil)) ∧
    (eventTypeOfName (pyUpper event_name) = none →
       (register_event_handler event_name filter_params).1 = .custom ∧
       dictGet (register_event_handler event_name filter_params).2 "type"
         = some (.str event_name)) := by
  constructor
  · intro et het
    unfold register_event_handler
    rw [het]
  · intro hnone
    unfold register_event_handler
    rw [hnone]
    exact ⟨rfl, dictGet_dictSet_self _ "type" (.str event_name)⟩

/-- C9 (witness): a mixed-case known name resolves to its category; an
    unknown name falls back to CUSTOM with the synthesized `type`
    filter. -/
theorem claim_C9_registration_fallback_witness :
    register_event_handler "Nft_Transfer" (some (.cons "sender" (.str "0x1") .nil))
      = (.nft_transfer, .cons "sender" (.str "0x1") .nil) ∧
    ((register_event_handler "my_custom_event" none).1 = .custom ∧
     dictGet (register_event_handler "my_custom_event" none).2 "type"
       = some (.str "my_custom_event")) :=
  ⟨(claim_C9_registration_fallback "Nft_Transfer"
      (some (.cons "sender" (.str "0x1") .nil))).1 .nft_transfer (by decide),
   (claim_C9_registration_fallback "my_custom_event" none).2 (by decide)⟩

/-- C10: the matcher is total (returns a boolean) on every event whose
    `type` field is absent or a string, for every category and filter;
    and it faults (raises, modelled as `none`) on an event whose
    `type` holds a non-string for a category that inspects the type
    string. -/
theorem claim_C10_matcher_totality :
    (∀ event event_type filter_params, type_ok event = true →
       ∃ b, event_matches event event_type filter_params = some b) ∧
    event_matches (.cons "type" (.int 0) .nil) .nft_transfer .nil = none := by
  refine ⟨?_, by decide⟩
  intro event event_type filter_params h
  unfold event_matches
  rw [category_passes_eq_spec event event_type h]
  cases spec_category_ok event_type event
  · exact ⟨false, rfl⟩
  · exact ⟨filters_match event filter_params, rfl⟩

/-- C10 (witness): an event with no `type` field gets a boolean from
    every category, here EPOCH_CHANGE. -/
theorem claim_C10_matcher_totality_witness :
    ∃ b, event_matches (.cons "sender" (.str "0x2") .nil) .epoch_change .nil = some b :=
  claim_C10_matcher_totality.1 (.cons "sender" (.str "0x2") .nil) .epoch_change .nil
    (by decide)
